import Mathlib

/-!
Verification development for the WIDIP MCP server (widip-mcp-server).

Shallow embedding of the governance core: the secret-partitioning helpers
(src/utils/secrets.py), the SAFEGUARD gate and HTTP endpoints
(src/mcp/server.py), the tool registry (src/mcp/registry.py), the approval
queue state machine (src/mcp/safeguard_queue.py), the security configuration
(src/config.py) and the workflow-side MCP client
(workflows/core/mcp_client.py).

JSON argument trees are modelled by the mutual inductive `JVal`/`JArr`/`JObj`
(Python dicts keep insertion order, so association lists are a faithful
model; Python dict keys are unique, which the well-formedness predicate
`nodupKeysObj` captures where a proof needs it).  Database and Redis state is
passed explicitly through `QueueState`; wall-clock instants are integers
(seconds) passed as a `now` parameter.  Fernet encryption is modelled as
identity on the stored tree: the envelope store holds the plaintext tree it
would decrypt to, which is what every claim observes.
-/

set_option maxHeartbeats 4000000
set_option maxRecDepth 4000

mutual
/-- JSON-like values: the `dict[str, Any]` argument trees the server passes
around.  Mutual encoding so that structural recursion and kernel evaluation
work. -/
inductive JVal where
  | jnull : JVal
  | jbool : Bool → JVal
  | jnum : Int → JVal
  | jstr : String → JVal
  | jarr : JArr → JVal
  | jobj : JObj → JVal
deriving Repr, DecidableEq

inductive JArr where
  | anil : JArr
  | acons : JVal → JArr → JArr
deriving Repr, DecidableEq

inductive JObj where
  | onil : JObj
  | ocons : String → JVal → JObj → JObj
deriving Repr, DecidableEq
end

open JVal JArr JObj

/-- Build a `JObj` from a list literal (insertion order preserved). -/
def objL : List (String × JVal) → JObj
  | [] => onil
  | (k, v) :: r => ocons k v (objL r)

/-- Build a `JArr` from a list literal. -/
def arrL : List JVal → JArr
  | [] => anil
  | v :: r => acons v (arrL r)

def JObj.isEmpty : JObj → Bool
  | onil => true
  | ocons _ _ _ => false

/-- `key in target` followed by `target[key]` on a Python dict. -/
def lookupKey : JObj → String → Option JVal
  | onil, _ => none
  | ocons k' v rest, k => if k' = k then some v else lookupKey rest k

/-- `target[key] = value` on a Python dict: replace in place if the key is
present, append otherwise. -/
def setKey : JObj → String → JVal → JObj
  | onil, k, v => ocons k v onil
  | ocons k' v' rest, k, v =>
    if k' = k then ocons k v rest else ocons k' v' (setKey rest k v)

def memKey : JObj → String → Bool
  | onil, _ => false
  | ocons k' _ rest, k => k' == k || memKey rest k

/-- ASCII lowering, the effect of Python's `str.lower()` on the ASCII keys
the server handles. -/
def lowerChar (c : Char) : Char :=
  match c with
  | 'A' => 'a' | 'B' => 'b' | 'C' => 'c' | 'D' => 'd' | 'E' => 'e' | 'F' => 'f'
  | 'G' => 'g' | 'H' => 'h' | 'I' => 'i' | 'J' => 'j' | 'K' => 'k' | 'L' => 'l'
  | 'M' => 'm' | 'N' => 'n' | 'O' => 'o' | 'P' => 'p' | 'Q' => 'q' | 'R' => 'r'
  | 'S' => 's' | 'T' => 't' | 'U' => 'u' | 'V' => 'v' | 'W' => 'w' | 'X' => 'x'
  | 'Y' => 'y' | 'Z' => 'z' | c => c

def lowerStr (s : String) : String := String.mk (s.data.map lowerChar)

/-- Does the first char list start the second? -/
def strStarts : List Char → List Char → Bool
  | [], _ => true
  | _ :: _, [] => false
  | a :: as, b :: bs => a == b && strStarts as bs

def strHas : List Char → List Char → Bool
  | [], needle => needle.isEmpty
  | c :: t, needle => strStarts needle (c :: t) || strHas t needle

/-- Python's `needle in hay` on strings. -/
def containsSub (needle hay : String) : Bool := strHas hay.data needle.data

/-- Python's `s.startswith(p)`. -/
def startsWithStr (p s : String) : Bool := strStarts p.data s.data

-- =============================================================================
-- src/utils/secrets.py
-- =============================================================================

/-- `SENSITIVE_FIELD_NAMES` from src/utils/secrets.py (a frozenset; listed in
source order). -/
def SENSITIVE_FIELD_NAMES : List String :=
  ["password", "new_password", "secret", "token", "api_key", "apikey",
   "private_key", "credentials", "auth", "authorization", "_temp_password"]

/-- `REDACTED_VALUE` from src/utils/secrets.py. -/
def REDACTED_VALUE : String := "[REDACTED]"

/-- The sensitivity test shared by `redact_sensitive_fields`,
`has_sensitive_fields` and `extract_sensitive_fields`:
`key_lower in fields or any(f in key_lower for f in fields)`. -/
def isSensitiveKey (k : String) : Bool :=
  SENSITIVE_FIELD_NAMES.contains (lowerStr k)
    || SENSITIVE_FIELD_NAMES.any (fun f => containsSub f (lowerStr k))

mutual
/-- `redact_sensitive_fields(data)` (default sensitive set, the one every
call site uses): sensitive keys are replaced by the sentinel; nested dicts
are recursed into; for list values, dict items are recursed into and all
other items pass through (`redact_sensitive_fields_list`). -/
def redact_sensitive_fields : JObj → JObj
  | onil => onil
  | ocons k v rest =>
    if isSensitiveKey k then ocons k (jstr REDACTED_VALUE) (redact_sensitive_fields rest)
    else match v with
      | jobj fs => ocons k (jobj (redact_sensitive_fields fs)) (redact_sensitive_fields rest)
      | jarr xs => ocons k (jarr (redact_sensitive_fields_list xs)) (redact_sensitive_fields rest)
      | _ => ocons k v (redact_sensitive_fields rest)

def redact_sensitive_fields_list : JArr → JArr
  | anil => anil
  | acons (jobj fs) rest => acons (jobj (redact_sensitive_fields fs)) (redact_sensitive_fields_list rest)
  | acons x rest => acons x (redact_sensitive_fields_list rest)
end

mutual
/-- `has_sensitive_fields(data)`: true when a sensitive key occurs at this
level, in a nested dict, or in a dict directly inside a list value. -/
def has_sensitive_fields : JObj → Bool
  | onil => false
  | ocons k v rest =>
    (isSensitiveKey k
      || (match v with
          | jobj fs => has_sensitive_fields fs
          | jarr xs => has_sensitive_fields_list xs
          | _ => false))
    || has_sensitive_fields rest

def has_sensitive_fields_list : JArr → Bool
  | anil => false
  | acons (jobj fs) rest => has_sensitive_fields fs || has_sensitive_fields_list rest
  | acons _ rest => has_sensitive_fields_list rest
end

/-- `extract_sensitive_fields(data) -> (cleaned, secrets_found)`.  Sensitive
keys become the sentinel in `cleaned` with the original value collected into
`secrets_found`; nested dicts are recursed into (the nested secrets kept only
when non-empty); every other value — lists included — is copied to `cleaned`
verbatim.  (Unlike `redact_sensitive_fields`, there is no list branch: this
is the source's behavior, not an abstraction.) -/
def extract_sensitive_fields : JObj → JObj × JObj
  | onil => (onil, onil)
  | ocons k v rest =>
    let er := extract_sensitive_fields rest
    if isSensitiveKey k then
      (ocons k (jstr REDACTED_VALUE) er.1, ocons k v er.2)
    else match v with
      | jobj fs =>
        let en := extract_sensitive_fields fs
        (ocons k (jobj en.1) er.1,
         if en.2.isEmpty then er.2 else ocons k (jobj en.2) er.2)
      | _ => (ocons k v er.1, er.2)

-- =============================================================================
-- src/mcp/safeguard_queue.py : SafeguardQueue._merge_secrets
-- =============================================================================

/-- `SafeguardQueue._merge_secrets(target, secrets)` (functional rendering of
the in-place mutation): for each `(key, value)` of `secrets` in order, recurse
when both sides hold a dict at `key`, otherwise assign `target[key] = value`. -/
def merge_secrets : JObj → JObj → JObj
  | target, onil => target
  | target, ocons k v rest =>
    match v, lookupKey target k with
    | jobj s, some (jobj u) => merge_secrets (setKey target k (jobj (merge_secrets u s))) rest
    | _, _ => merge_secrets (setKey target k v) rest

-- =============================================================================
-- src/config.py
-- =============================================================================

/-- `SecurityLevel` (SAFEGUARD levels L0-L4) from src/config.py. -/
inductive SecurityLevel where
  | L0_READ_ONLY : SecurityLevel
  | L1_MINOR : SecurityLevel
  | L2_MODERATE : SecurityLevel
  | L3_SENSITIVE : SecurityLevel
  | L4_FORBIDDEN : SecurityLevel
deriving Repr, DecidableEq

/-- The string value of a level (the `str`-enum payload). -/
def SecurityLevel.value : SecurityLevel → String
  | .L0_READ_ONLY => "L0"
  | .L1_MINOR => "L1"
  | .L2_MODERATE => "L2"
  | .L3_SENSITIVE => "L3"
  | .L4_FORBIDDEN => "L4"

/-- Generic association-list read: Python `dict.get(k)`. -/
def alGet {α : Type} : List (String × α) → String → Option α
  | [], _ => none
  | (k', v) :: rest, k => if k' = k then some v else alGet rest k

/-- Generic association-list write: `d[k] = v` (replace in place or append). -/
def alSet {α : Type} : List (String × α) → String → α → List (String × α)
  | [], k, v => [(k, v)]
  | (k', v') :: rest, k, v =>
    if k' = k then (k, v) :: rest else (k', v') :: alSet rest k v

/-- Generic association-list delete: `del d[k]` / Redis `DELETE`. -/
def alDel {α : Type} : List (String × α) → String → List (String × α)
  | [], _ => []
  | (k', v') :: rest, k => if k' = k then alDel rest k else (k', v') :: alDel rest k

/-- `TOOL_SECURITY_LEVELS` from src/config.py, complete and in source order. -/
def TOOL_SECURITY_LEVELS : List (String × SecurityLevel) :=
  [("glpi_search_new_tickets", .L0_READ_ONLY),
   ("glpi_get_ticket_details", .L0_READ_ONLY),
   ("glpi_search_client", .L0_READ_ONLY),
   ("glpi_create_ticket", .L1_MINOR),
   ("glpi_add_ticket_followup", .L1_MINOR),
   ("glpi_update_ticket_status", .L2_MODERATE),
   ("glpi_assign_ticket", .L2_MODERATE),
   ("glpi_close_ticket", .L3_SENSITIVE),
   ("glpi_send_email", .L1_MINOR),
   ("observium_get_device_status", .L0_READ_ONLY),
   ("observium_get_device_metrics", .L0_READ_ONLY),
   ("observium_get_device_alerts", .L0_READ_ONLY),
   ("observium_get_device_history", .L0_READ_ONLY),
   ("ad_check_user", .L0_READ_ONLY),
   ("ad_get_user_info", .L0_READ_ONLY),
   ("ad_unlock_account", .L2_MODERATE),
   ("ad_reset_password", .L3_SENSITIVE),
   ("ad_create_user", .L4_FORBIDDEN),
   ("ad_disable_account", .L3_SENSITIVE),
   ("ad_enable_account", .L2_MODERATE),
   ("ad_move_to_ou", .L2_MODERATE),
   ("ad_copy_groups_from", .L3_SENSITIVE),
   ("memory_search_similar_cases", .L0_READ_ONLY),
   ("memory_add_knowledge", .L1_MINOR),
   ("memory_get_stats", .L0_READ_ONLY),
   ("mysecret_create_secret", .L1_MINOR),
   ("notify_client", .L1_MINOR),
   ("notify_technician", .L1_MINOR),
   ("request_human_validation", .L1_MINOR),
   ("glpi_get_resolved_tickets", .L0_READ_ONLY),
   ("memory_check_exists", .L0_READ_ONLY),
   ("enrichisseur_extract_knowledge", .L0_READ_ONLY),
   ("enrichisseur_get_stats", .L0_READ_ONLY),
   ("enrichisseur_run_batch", .L1_MINOR)]

/-- The security-relevant fields of `Settings` (src/config.py); the
`SecretStr` wrappers are modelled by the secret value itself
(`get_secret_value()`), with `""` for the unset default. -/
structure Settings where
  environment : String
  mcp_api_key : String
  mcp_require_auth : Bool
  cors_allowed_origins : String
  safeguard_enabled : Bool
  redis_secret_key : String
deriving Repr, DecidableEq

/-- `Settings.validate_security` from src/config.py: the list of emitted
messages in source order.  The decisive content is each message's
`CRITICAL`/`WARNING` head, which the startup hook dispatches on; the
explanatory tails are abbreviated. -/
def Settings.validate_security (s : Settings) : List String :=
  (if lowerStr s.environment = "production" then
    (if !s.mcp_require_auth then
      ["CRITICAL: MCP_REQUIRE_AUTH must be 'true' in production."] else [])
    ++ (if s.mcp_api_key = "" then
      ["CRITICAL: MCP_API_KEY is empty in production."] else [])
    ++ (if !s.safeguard_enabled then
      ["CRITICAL: SAFEGUARD_ENABLED must be 'true' in production."] else [])
    ++ (if s.cors_allowed_origins = "" then
      ["CRITICAL: CORS_ALLOWED_ORIGINS must be configured in production."] else [])
    ++ (if s.redis_secret_key = "" then
      ["CRITICAL: REDIS_SECRET_KEY is empty in production."] else [])
  else [])
  ++ (if s.mcp_require_auth && s.mcp_api_key = "" then
      ["CRITICAL: mcp_require_auth=True mais MCP_API_KEY est vide."] else [])
  ++ (if s.mcp_api_key ≠ "" && s.mcp_api_key.length < 32 then
      ["WARNING: MCP_API_KEY trop courte."] else [])
  ++ (if s.redis_secret_key ≠ "" && s.redis_secret_key.length < 32 then
      ["WARNING: REDIS_SECRET_KEY trop courte."] else [])

/-- The startup decision in `lifespan` (src/mcp/server.py lines 230-236):
a `RuntimeError` is raised exactly when some validation message starts with
`CRITICAL`; `WARNING` messages are only logged. -/
def startup_raises (s : Settings) : Bool :=
  (s.validate_security).any (fun e => startsWithStr "CRITICAL" e)

-- =============================================================================
-- src/mcp/protocol.py
-- =============================================================================

def MCPErrorCode.PARSE_ERROR : Int := -32700
def MCPErrorCode.INVALID_REQUEST : Int := -32600
def MCPErrorCode.METHOD_NOT_FOUND : Int := -32601
def MCPErrorCode.INVALID_PARAMS : Int := -32602
def MCPErrorCode.INTERNAL_ERROR : Int := -32603
def MCPErrorCode.TOOL_NOT_FOUND : Int := -32000
def MCPErrorCode.TOOL_EXECUTION_ERROR : Int := -32001
def MCPErrorCode.AUTHENTICATION_ERROR : Int := -32002
def MCPErrorCode.RATE_LIMIT_ERROR : Int := -32003
def MCPErrorCode.EXTERNAL_API_ERROR : Int := -32004
def MCPErrorCode.VALIDATION_ERROR : Int := -32005
def MCPErrorCode.TIMEOUT_ERROR : Int := -32006

/-- `MCPError` (protocol.py): JSON-RPC error object. -/
structure MCPError where
  code : Int
  message : String
  data : Option JVal
deriving Repr, DecidableEq

/-- `MCPResponse` (protocol.py): JSON-RPC 2.0 response envelope. -/
structure MCPResponse where
  id : String
  result : Option JVal
  error : Option MCPError
deriving Repr, DecidableEq

def MCPResponse.success (request_id : String) (result : JVal) : MCPResponse :=
  { id := request_id, result := some result, error := none }

def MCPResponse.failure (request_id : String) (code : Int) (message : String)
    (data : Option JVal) : MCPResponse :=
  { id := request_id, result := none, error := some { code, message, data } }

-- =============================================================================
-- src/mcp/registry.py
-- =============================================================================

/-- What invoking a Python tool handler can do: return a value, raise
`TypeError` (bad keyword arguments), or raise some other exception (carrying
its type name). -/
inductive HandlerOutcome where
  | ok : JVal → HandlerOutcome
  | raiseTypeError : String → HandlerOutcome
  | raiseOther : String → String → HandlerOutcome
deriving Repr, DecidableEq

/-- `MCPTool` (protocol.py): name plus optional handler.  The handler is a
function of the keyword-argument dict. -/
structure MCPTool where
  name : String
  handler : Option (JObj → HandlerOutcome)

/-- `ToolRegistry.get` / `self._tools.get(name)`: the registry dict is keyed
by `tool.name`. -/
def ToolRegistry.get (tools : List MCPTool) (name : String) : Option MCPTool :=
  tools.find? (fun t => t.name == name)

/-- `ToolRegistry.execute` (registry.py lines 104-193): unknown tool gives
`TOOL_NOT_FOUND`; a missing handler gives `INTERNAL_ERROR`; a `TypeError`
from the handler gives `INVALID_PARAMS`; any other exception gives
`TOOL_EXECUTION_ERROR` with the exception type name kept under
`data.error_type`. -/
def ToolRegistry.execute (tools : List MCPTool) (tool_name : String)
    (arguments : JObj) (request_id : String) : MCPResponse :=
  match ToolRegistry.get tools tool_name with
  | none =>
    MCPResponse.failure request_id MCPErrorCode.TOOL_NOT_FOUND
      ("Tool '" ++ tool_name ++ "' not found") none
  | some tool =>
    match tool.handler with
    | none =>
      MCPResponse.failure request_id MCPErrorCode.INTERNAL_ERROR
        ("Tool '" ++ tool_name ++ "' has no handler") none
    | some h =>
      match h arguments with
      | .ok result => MCPResponse.success request_id result
      | .raiseTypeError m =>
        MCPResponse.failure request_id MCPErrorCode.INVALID_PARAMS
          ("Invalid parameters: " ++ m) none
      | .raiseOther etype m =>
        MCPResponse.failure request_id MCPErrorCode.TOOL_EXECUTION_ERROR
          ("Tool execution failed: " ++ m)
          (some (jobj (objL [("error_type", jstr etype)])))

-- =============================================================================
-- src/mcp/server.py : SAFEGUARD gate
-- =============================================================================

/-- `SafeguardResponse` (server.py). -/
structure SafeguardResponse where
  allowed : Bool
  level : SecurityLevel
  message : String
  requires_human : Bool
  pending_approval_id : Option String
deriving Repr, DecidableEq

/-- `SafeguardResponse.to_dict`. -/
def SafeguardResponse.to_dict (r : SafeguardResponse) : JVal :=
  jobj (objL
    [("allowed", jbool r.allowed),
     ("level", jstr r.level.value),
     ("message", jstr r.message),
     ("requires_human", jbool r.requires_human),
     ("pending_approval_id",
      match r.pending_approval_id with | none => jnull | some s => jstr s)])

/-- `check_safeguard(tool_name, confidence)` (server.py lines 112-214).
Confidence is a rational (the float comparisons here are exact).  With
SAFEGUARD disabled everything maps to L0.  An unknown tool defaults to
`L0_READ_ONLY` via `TOOL_SECURITY_LEVELS.get(tool_name, L0_READ_ONLY)`; the
final "refuser par sécurité" fallback of the source is unreachable because
the level enum is exhausted by the five branches.  The numeric confidence
interpolated into two of the messages is elided. -/
def check_safeguard (safeguard_enabled : Bool) (tool_name : String)
    (confidence : Rat) : SafeguardResponse :=
  if !safeguard_enabled then
    { allowed := true, level := .L0_READ_ONLY, message := "SAFEGUARD disabled",
      requires_human := false, pending_approval_id := none }
  else
    let level := (alGet TOOL_SECURITY_LEVELS tool_name).getD .L0_READ_ONLY
    match level with
    | .L0_READ_ONLY =>
      { allowed := true, level, message := "Action en lecture seule autorisée",
        requires_human := false, pending_approval_id := none }
    | .L1_MINOR =>
      if confidence ≥ 80 then
        { allowed := true, level, message := "Action mineure autorisée",
          requires_human := false, pending_approval_id := none }
      else
        { allowed := false, level,
          message := "Confidence insuffisante (< 80%). Validation requise.",
          requires_human := true, pending_approval_id := none }
    | .L2_MODERATE =>
      { allowed := true, level,
        message := "Action modérée exécutée (notification envoyée)",
        requires_human := false, pending_approval_id := none }
    | .L3_SENSITIVE =>
      { allowed := false, level,
        message := "ACTION SENSIBLE BLOQUÉE. Validation humaine requise. Utilisez POST /safeguard/request pour soumettre une demande.",
        requires_human := true, pending_approval_id := none }
    | .L4_FORBIDDEN =>
      { allowed := false, level,
        message := "ACTION INTERDITE. Ce tool ne peut être exécuté que manuellement par un humain.",
        requires_human := true, pending_approval_id := none }

/-- An HTTP response carrying a JSON-RPC body (what `POST /mcp/call`
returns). -/
structure McpHttp where
  status_code : Int
  body : MCPResponse
deriving Repr, DecidableEq

/-- The `POST /mcp/call` endpoint (server.py lines 489-604) from the point
where a well-formed JSON-RPC request has been parsed and `name`, `arguments`
and `confidence` extracted.  A SAFEGUARD block returns HTTP 403 with a
JSON-RPC error of hard-coded code `-32001` whose `data` is
`SafeguardResponse.to_dict`; otherwise the registry executes the tool and
the JSON-RPC envelope is returned with HTTP 200. -/
def mcp_call_endpoint (safeguard_enabled : Bool) (tools : List MCPTool)
    (request_id : String) (tool_name : String) (arguments : JObj)
    (confidence : Rat) : McpHttp :=
  let sr := check_safeguard safeguard_enabled tool_name confidence
  if !sr.allowed then
    { status_code := 403,
      body := { id := request_id, result := none,
                error := some { code := -32001, message := sr.message,
                                data := some sr.to_dict } } }
  else
    { status_code := 200,
      body := ToolRegistry.execute tools tool_name arguments request_id }

-- =============================================================================
-- src/mcp/safeguard_queue.py : state machine
-- =============================================================================

/-- `ApprovalStatus` (safeguard_queue.py). -/
inductive ApprovalStatus where
  | pending : ApprovalStatus
  | approved : ApprovalStatus
  | rejected : ApprovalStatus
  | expired : ApprovalStatus
  | executed : ApprovalStatus
  | failed : ApprovalStatus
deriving Repr, DecidableEq

/-- A row of the `safeguard_approvals` table. -/
structure ApprovalRecord where
  tool_name : String
  arguments : JObj
  security_level : String
  requester_ip : Option String
  request_context : JObj
  status : ApprovalStatus
  created_at : Int
  expires_at : Int
  approved_at : Option Int
  approver : Option String
  approval_comment : Option String
  executed_at : Option Int
  execution_result : Option JVal
  execution_error : Option String
deriving Repr, DecidableEq

/-- The durable PostgreSQL table (rows keyed by approval id) together with
the Redis secret side-store (key `approval:<id>` mapping to the decrypted
envelope tree and its TTL in seconds). -/
structure QueueState where
  records : List (String × ApprovalRecord)
  secrets : List (String × (JObj × Int))
deriving Repr, DecidableEq

/-- Python truthiness of a JSON value (`if result:` / `if not secrets:`). -/
def jvalTruthy : JVal → Bool
  | jnull => false
  | jbool b => b
  | jnum n => n != 0
  | jstr s => s ≠ ""
  | jarr anil => false
  | jarr (acons _ _) => true
  | jobj onil => false
  | jobj (ocons _ _ _) => true

/-- Result of `create_approval_request` (the dict the endpoint returns with
HTTP 201). -/
structure CreateResult where
  approval_id : String
  tool_name : String
  status : ApprovalStatus
  created_at : Int
  expires_at : Int
  ttl_minutes : Int
deriving Repr, DecidableEq

/-- `SafeguardQueue.create_approval_request` (safeguard_queue.py lines
111-200).  The generated UUID is passed in as `approval_id`.  Arguments are
split by `extract_sensitive_fields`; when secrets were found (`if
extracted_secrets:`) the secrets tree is stored encrypted under
`approval:<id>` with TTL `ttl_minutes*60 + 300`; the record is inserted with
the cleaned arguments and status pending, `expires_at = now + ttl_minutes*60`. -/
def SafeguardQueue.create_approval_request (st : QueueState) (now : Int)
    (approval_id : String) (tool_name : String) (arguments : JObj)
    (security_level : String) (requester_ip : Option String) (context : JObj)
    (ttl_minutes : Int) : CreateResult × QueueState :=
  let expires_at := now + ttl_minutes * 60
  let es := extract_sensitive_fields arguments
  let secrets' :=
    if es.2.isEmpty then st.secrets
    else alSet st.secrets ("approval:" ++ approval_id) (es.2, ttl_minutes * 60 + 300)
  let record : ApprovalRecord :=
    { tool_name, arguments := es.1, security_level, requester_ip,
      request_context := context, status := .pending, created_at := now,
      expires_at, approved_at := none, approver := none,
      approval_comment := none, executed_at := none, execution_result := none,
      execution_error := none }
  ({ approval_id, tool_name, status := .pending, created_at := now,
     expires_at, ttl_minutes },
   { records := alSet st.records approval_id record, secrets := secrets' })

/-- The outcome dict of `approve` / `reject`. -/
structure OpResult where
  success : Bool
  message : String
deriving Repr, DecidableEq

/-- `SafeguardQueue.approve` (lines 245-325): missing id fails; a
non-pending record fails untouched; a pending record past `expires_at` is
first marked expired and the call fails with "Demande expirée"; otherwise
the record becomes approved with approver metadata. -/
def SafeguardQueue.approve (st : QueueState) (now : Int) (approval_id : String)
    (approver : String) (comment : Option String) : OpResult × QueueState :=
  match alGet st.records approval_id with
  | none => ({ success := false, message := "Demande d'approbation non trouvée" }, st)
  | some r =>
    if r.status ≠ .pending then
      ({ success := false, message := "Demande déjà traitée" }, st)
    else if r.expires_at < now then
      ({ success := false, message := "Demande expirée" },
       { st with records := alSet st.records approval_id { r with status := .expired } })
    else
      let r' := { r with status := ApprovalStatus.approved,
                         approved_at := some now, approver := some approver,
                         approval_comment := comment }
      ({ success := true, message := "Action approuvée. Prête pour exécution." },
       { st with records := alSet st.records approval_id r' })

/-- `SafeguardQueue.reject` (lines 327-369): a single
`UPDATE … WHERE id = $1 AND status = 'pending'` — note there is no
expiry check on this path. -/
def SafeguardQueue.reject (st : QueueState) (now : Int) (approval_id : String)
    (approver : String) (comment : Option String) : OpResult × QueueState :=
  match alGet st.records approval_id with
  | none => ({ success := false, message := "Demande non trouvée ou déjà traitée" }, st)
  | some r =>
    if r.status = .pending then
      let r' := { r with status := ApprovalStatus.rejected,
                         approved_at := some now, approver := some approver,
                         approval_comment := comment }
      ({ success := true, message := "Action rejetée." },
       { st with records := alSet st.records approval_id r' })
    else
      ({ success := false, message := "Demande non trouvée ou déjà traitée" }, st)

/-- `SafeguardQueue.mark_executed` (lines 371-397): an
`UPDATE … WHERE id = $1` with no condition on the current status.  The new
status is executed when `error` is falsy (absent or empty) and failed
otherwise; `execution_result` is stored only when the result dict is truthy
(`json.dumps(result) if result else None`). -/
def SafeguardQueue.mark_executed (st : QueueState) (now : Int)
    (approval_id : String) (result : Option JVal) (error : Option String) :
    QueueState :=
  match alGet st.records approval_id with
  | none => st
  | some r =>
    let status : ApprovalStatus :=
      match error with
      | none => .executed
      | some e => if e = "" then .executed else .failed
    let stored : Option JVal :=
      match result with
      | some rv => if jvalTruthy rv then some rv else none
      | none => none
    let r' := { r with status, executed_at := some now,
                       execution_result := stored, execution_error := error }
    { st with records := alSet st.records approval_id r' }

/-- `SafeguardQueue.expire_old_requests` (lines 399-423):
`UPDATE … SET status='expired' WHERE status='pending' AND expires_at < NOW()`. -/
def expireStep (now : Int) (r : ApprovalRecord) : ApprovalRecord :=
  if r.status = .pending && r.expires_at < now then { r with status := .expired } else r

def SafeguardQueue.expire_old_requests (st : QueueState) (now : Int) : QueueState :=
  { st with records := st.records.map (fun p => (p.1, expireStep now p.2)) }

/-- Descending insertion by `created_at` (the `ORDER BY created_at DESC`). -/
def insertByCreatedDesc (p : String × ApprovalRecord) :
    List (String × ApprovalRecord) → List (String × ApprovalRecord)
  | [] => [p]
  | q :: rest =>
    if p.2.created_at ≥ q.2.created_at then p :: q :: rest
    else q :: insertByCreatedDesc p rest

def sortByCreatedDesc (l : List (String × ApprovalRecord)) :
    List (String × ApprovalRecord) :=
  l.foldr insertByCreatedDesc []

/-- `SafeguardQueue.get_pending_approvals` (lines 202-243):
`WHERE status = 'pending' AND expires_at > NOW() ORDER BY created_at DESC
LIMIT $1` (returned as id-record pairs; the field projection of the Python
row dicts is elided). -/
def SafeguardQueue.get_pending_approvals (st : QueueState) (now : Int)
    (limit : Nat) : List (String × ApprovalRecord) :=
  (sortByCreatedDesc (st.records.filter (fun p =>
      p.2.status = .pending && p.2.expires_at > now))).take limit

/-- `SafeguardQueue.get_approval_status` (lines 425-455): plain row read. -/
def SafeguardQueue.get_approval_status (st : QueueState) (approval_id : String) :
    Option ApprovalRecord :=
  alGet st.records approval_id

/-- `SafeguardQueue.get_full_arguments` (lines 457-505): reads the redacted
arguments from the table; reads the envelope from Redis; when the envelope is
missing or falsy the redacted arguments are returned as they are, otherwise
the secrets are merged back in. -/
def SafeguardQueue.get_full_arguments (st : QueueState) (approval_id : String) :
    Option JObj :=
  match alGet st.records approval_id with
  | none => none
  | some r =>
    match alGet st.secrets ("approval:" ++ approval_id) with
    | none => some r.arguments
    | some (secrets, _) =>
      if secrets.isEmpty then some r.arguments
      else some (merge_secrets r.arguments secrets)

/-- `SafeguardQueue.cleanup_secrets` (lines 524-536). -/
def SafeguardQueue.cleanup_secrets (st : QueueState) (approval_id : String) :
    QueueState :=
  { st with secrets := alDel st.secrets ("approval:" ++ approval_id) }

-- =============================================================================
-- src/mcp/server.py : POST /safeguard/execute/{approval_id}
-- =============================================================================

/-- What `execute_approved_action` answers over HTTP. -/
structure ExecuteHttp where
  status_code : Int
  success : Bool
  result : Option JVal
  error_message : Option String
deriving Repr, DecidableEq

/-- Rendering of Python's `str(response.error)` (a pydantic model repr):
some non-empty string mentioning the code and message. -/
def mcpErrorStr (e : MCPError) : String :=
  "code=" ++ toString e.code ++ " message=" ++ e.message

/-- The `POST /safeguard/execute/{approval_id}` endpoint (server.py lines
852-942).  It reads the record via `get_approval_status`, requires status
approved, and then dispatches the registry on `approval["arguments"]` — the
redacted arguments column, with no call to `get_full_arguments` and no call
to `cleanup_secrets` anywhere on the path.  On a tool error the record is
marked failed (HTTP 500); on success it is marked executed (HTTP 200). -/
def execute_approved_action (tools : List MCPTool) (st : QueueState)
    (now : Int) (approval_id : String) : ExecuteHttp × QueueState :=
  match SafeguardQueue.get_approval_status st approval_id with
  | none =>
    ({ status_code := 404, success := false, result := none,
       error_message := some "Approval request not found" }, st)
  | some approval =>
    if approval.status ≠ .approved then
      ({ status_code := 400, success := false, result := none,
         error_message := some "Cannot execute: status is not approved" }, st)
    else
      let response := ToolRegistry.execute tools approval.tool_name
        approval.arguments ("approved-" ++ approval_id)
      match response.error with
      | some e =>
        ({ status_code := 500, success := false, result := none,
           error_message := some e.message },
         SafeguardQueue.mark_executed st now approval_id none (some (mcpErrorStr e)))
      | none =>
        ({ status_code := 200, success := true, result := response.result,
           error_message := none },
         SafeguardQueue.mark_executed st now approval_id response.result none)

-- =============================================================================
-- workflows/core/mcp_client.py : MCPClient.call
-- =============================================================================

/-- What one attempt of the client's retry loop decides. -/
inductive ClientOutcome where
  | success : Option JVal → ClientOutcome
  | mcpError : String → Int → ClientOutcome
  | safeguardBlocked : String → Option String → Option String → ClientOutcome
deriving Repr, DecidableEq

inductive AttemptStep where
  | raiseNow : ClientOutcome → AttemptStep
  | done : Option JVal → AttemptStep
  | retryLater : ClientOutcome → AttemptStep
deriving Repr, DecidableEq

/-- `error_data.get(k)` when the value is a string. -/
def dataGetStr (d : Option JVal) (k : String) : Option String :=
  match d with
  | some (jobj fs) =>
    match lookupKey fs k with
    | some (jstr s) => some s
    | _ => none
  | _ => none

/-- One pass of the body of `MCPClient.call`'s retry loop (mcp_client.py
lines 112-215), classifying the server's HTTP response: 403 raises
`MCPError("Authentication failed", 403)` before the body is ever inspected;
404 raises; 5xx retries; any other non-2xx raises `httpx.HTTPStatusError`,
which the generic `except Exception` turns into a retried `MCPError(-1)`.
Only then is the JSON-RPC body examined: error code −32003 or a message
containing "safeguard" raises `SafeguardBlockedError` (reading
`security_level` and `approval_id` out of `error.data`); other JSON-RPC
errors raise `MCPError` with the JSON-RPC code, re-raised immediately only
for codes 403/404 and retried otherwise. -/
def clientAttempt (resp : McpHttp) (tool_name : String) : AttemptStep :=
  if resp.status_code = 403 then
    .raiseNow (.mcpError "Authentication failed" 403)
  else if resp.status_code = 404 then
    .raiseNow (.mcpError ("Tool not found: " ++ tool_name) 404)
  else if resp.status_code ≥ 500 then
    .retryLater (.mcpError "MCP Server error" resp.status_code)
  else if resp.status_code ≥ 400 then
    .retryLater (.mcpError "Unexpected error" (-1))
  else
    match resp.body.error with
    | some e =>
      if e.code = -32003 || containsSub "safeguard" (lowerStr e.message) then
        .raiseNow (.safeguardBlocked e.message
          (dataGetStr e.data "security_level") (dataGetStr e.data "approval_id"))
      else if e.code = 403 || e.code = 404 then
        .raiseNow (.mcpError e.message e.code)
      else
        .retryLater (.mcpError e.message e.code)
    | none => .done resp.body.result

/-- `MCPClient.call` against a deterministic server (the same response on
every attempt), returning the outcome and the number of HTTP attempts made:
an immediate raise or a success ends the loop on attempt 1; a retriable
error is retried with backoff until `max_retries` attempts are exhausted and
the last error is raised. -/
def MCPClient.call (max_retries : Nat) (resp : McpHttp) (tool_name : String) :
    ClientOutcome × Nat :=
  match clientAttempt resp tool_name with
  | .raiseNow o => (o, 1)
  | .done v => (.success v, 1)
  | .retryLater e => (e, max_retries)

-- =============================================================================
-- Well-formedness predicates for argument trees
-- =============================================================================

mutual
/-- Python dict keys are unique: no duplicate keys at this level or in any
nested object reached through object values (lists are copied opaquely by
`extract_sensitive_fields`, so their contents need no key discipline). -/
def nodupKeysObj : JObj → Bool
  | onil => true
  | ocons k v rest => !(memKey rest k) && nodupKeysVal v && nodupKeysObj rest

def nodupKeysVal : JVal → Bool
  | jobj fs => nodupKeysObj fs
  | _ => true
end

mutual
/-- No sensitive key occurs in any object anywhere under this value. -/
def noSensVal : JVal → Bool
  | jobj fs => noSensObj fs
  | jarr xs => noSensArr xs
  | _ => true

def noSensObj : JObj → Bool
  | onil => true
  | ocons k v rest => !(isSensitiveKey k) && noSensVal v && noSensObj rest

def noSensArr : JArr → Bool
  | anil => true
  | acons v rest => noSensVal v && noSensArr rest
end

mutual
/-- Every array in the tree is free of sensitive fields (at any depth):
the region where `redact_sensitive_fields` and `extract_sensitive_fields`
disagree is empty. -/
def arraysCleanVal : JVal → Bool
  | jobj fs => arraysCleanObj fs
  | jarr xs => noSensArr xs
  | _ => true

def arraysCleanObj : JObj → Bool
  | onil => true
  | ocons _ v rest => arraysCleanVal v && arraysCleanObj rest
end

-- =============================================================================
-- Helper lemmas
-- =============================================================================

theorem JObj.isEmpty_iff (o : JObj) : o.isEmpty = true ↔ o = onil := by
  cases o <;> simp [JObj.isEmpty]

mutual
theorem redact_eq_self_of_noSens :
    ∀ fs : JObj, noSensObj fs = true → redact_sensitive_fields fs = fs
  | onil, _ => rfl
  | ocons k v rest, h => by
    simp only [noSensObj, Bool.and_eq_true, Bool.not_eq_true'] at h
    obtain ⟨⟨hk, hv⟩, hr⟩ := h
    cases v <;>
      simp only [redact_sensitive_fields, hk, Bool.false_eq_true, if_false,
        redact_eq_self_of_noSens rest hr, ocons.injEq, and_true, true_and] <;>
      simp only [noSensVal] at hv
    · exact congrArg JVal.jarr (redact_list_eq_self_of_noSens _ hv)
    · exact congrArg JVal.jobj (redact_eq_self_of_noSens _ hv)

theorem redact_list_eq_self_of_noSens :
    ∀ xs : JArr, noSensArr xs = true → redact_sensitive_fields_list xs = xs
  | anil, _ => rfl
  | acons v rest, h => by
    simp only [noSensArr, Bool.and_eq_true] at h
    obtain ⟨hv, hr⟩ := h
    cases v <;>
      simp only [redact_sensitive_fields_list,
        redact_list_eq_self_of_noSens rest hr, acons.injEq, and_true, true_and]
    simp only [noSensVal] at hv
    exact congrArg JVal.jobj (redact_eq_self_of_noSens _ hv)
end

/-- Scalar test: neither a dict nor a list. -/
def JVal.isScalar : JVal → Bool
  | jobj _ => false
  | jarr _ => false
  | _ => true

def JVal.isObj : JVal → Bool
  | jobj _ => true
  | _ => false

theorem redact_cons_sens (k : String) (v : JVal) (rest : JObj)
    (h : isSensitiveKey k = true) :
    redact_sensitive_fields (ocons k v rest) =
      ocons k (jstr REDACTED_VALUE) (redact_sensitive_fields rest) := by
  rw [redact_sensitive_fields.eq_def]; simp [h]

theorem redact_cons_obj (k : String) (fs rest : JObj)
    (h : isSensitiveKey k = false) :
    redact_sensitive_fields (ocons k (jobj fs) rest) =
      ocons k (jobj (redact_sensitive_fields fs)) (redact_sensitive_fields rest) := by
  rw [redact_sensitive_fields.eq_def]; simp [h]

theorem redact_cons_arr (k : String) (xs : JArr) (rest : JObj)
    (h : isSensitiveKey k = false) :
    redact_sensitive_fields (ocons k (jarr xs) rest) =
      ocons k (jarr (redact_sensitive_fields_list xs)) (redact_sensitive_fields rest) := by
  rw [redact_sensitive_fields.eq_def]; simp [h]

theorem redact_cons_scalar (k : String) (v : JVal) (rest : JObj)
    (h : isSensitiveKey k = false) (hv : v.isScalar = true) :
    redact_sensitive_fields (ocons k v rest) =
      ocons k v (redact_sensitive_fields rest) := by
  rw [redact_sensitive_fields.eq_def]
  cases v <;> simp_all [JVal.isScalar]

theorem extract_cons_sens (k : String) (v : JVal) (rest : JObj)
    (h : isSensitiveKey k = true) :
    extract_sensitive_fields (ocons k v rest) =
      (ocons k (jstr REDACTED_VALUE) (extract_sensitive_fields rest).1,
       ocons k v (extract_sensitive_fields rest).2) := by
  rw [extract_sensitive_fields.eq_def]; simp [h]

theorem extract_cons_obj (k : String) (fs rest : JObj)
    (h : isSensitiveKey k = false) :
    extract_sensitive_fields (ocons k (jobj fs) rest) =
      (ocons k (jobj (extract_sensitive_fields fs).1) (extract_sensitive_fields rest).1,
       if (extract_sensitive_fields fs).2.isEmpty then (extract_sensitive_fields rest).2
       else ocons k (jobj (extract_sensitive_fields fs).2) (extract_sensitive_fields rest).2) := by
  rw [extract_sensitive_fields.eq_def]; simp [h]

theorem extract_cons_nonobj (k : String) (v : JVal) (rest : JObj)
    (h : isSensitiveKey k = false) (hv : v.isObj = false) :
    extract_sensitive_fields (ocons k v rest) =
      (ocons k v (extract_sensitive_fields rest).1, (extract_sensitive_fields rest).2) := by
  rw [extract_sensitive_fields.eq_def]
  cases v <;> simp_all [JVal.isObj]

theorem merge_secrets_nil (t : JObj) : merge_secrets t onil = t := by
  rw [merge_secrets.eq_def]

theorem merge_secrets_cons_objs (t : JObj) (k : String) (s rest : JObj) (u : JObj)
    (h : lookupKey t k = some (jobj u)) :
    merge_secrets t (ocons k (jobj s) rest) =
      merge_secrets (setKey t k (jobj (merge_secrets u s))) rest := by
  rw [merge_secrets.eq_def]; simp [h]

theorem merge_secrets_cons_assign (t : JObj) (k : String) (v : JVal) (rest : JObj)
    (h : ∀ u : JObj, lookupKey t k ≠ some (jobj u)) :
    merge_secrets t (ocons k v rest) =
      merge_secrets (setKey t k v) rest :=
  merge_secrets.eq_3 t k rest v (fun _ u _ hl => h u hl)

theorem merge_secrets_cons_nonobj (t : JObj) (k : String) (v : JVal) (rest : JObj)
    (hv : v.isObj = false) :
    merge_secrets t (ocons k v rest) =
      merge_secrets (setKey t k v) rest := by
  refine merge_secrets.eq_3 t k rest v (fun s u hveq _ => ?_)
  subst hveq
  simp [JVal.isObj] at hv

theorem redact_eq_extract_clean :
    ∀ fs : JObj, arraysCleanObj fs = true →
      redact_sensitive_fields fs = (extract_sensitive_fields fs).1
  | onil, _ => rfl
  | ocons k v rest, h => by
    simp only [arraysCleanObj, Bool.and_eq_true] at h
    obtain ⟨hv, hr⟩ := h
    by_cases hk : isSensitiveKey k
    · rw [redact_cons_sens k v rest hk, extract_cons_sens k v rest hk,
        redact_eq_extract_clean rest hr]
    · rw [Bool.not_eq_true] at hk
      cases v with
      | jobj fs' =>
        simp only [arraysCleanVal] at hv
        rw [redact_cons_obj k fs' rest hk, extract_cons_obj k fs' rest hk]
        by_cases he : (extract_sensitive_fields fs').2.isEmpty = true <;>
          simp [he, redact_eq_extract_clean fs' hv, redact_eq_extract_clean rest hr]
      | jarr xs =>
        simp only [arraysCleanVal] at hv
        rw [redact_cons_arr k xs rest hk,
          extract_cons_nonobj k (jarr xs) rest hk rfl,
          redact_list_eq_self_of_noSens xs hv, redact_eq_extract_clean rest hr]
      | jnull =>
        rw [redact_cons_scalar k jnull rest hk rfl,
          extract_cons_nonobj k jnull rest hk rfl, redact_eq_extract_clean rest hr]
      | jbool b =>
        rw [redact_cons_scalar k (jbool b) rest hk rfl,
          extract_cons_nonobj k (jbool b) rest hk rfl, redact_eq_extract_clean rest hr]
      | jnum n =>
        rw [redact_cons_scalar k (jnum n) rest hk rfl,
          extract_cons_nonobj k (jnum n) rest hk rfl, redact_eq_extract_clean rest hr]
      | jstr s =>
        rw [redact_cons_scalar k (jstr s) rest hk rfl,
          extract_cons_nonobj k (jstr s) rest hk rfl, redact_eq_extract_clean rest hr]

theorem extract_nil : extract_sensitive_fields onil = (onil, onil) := rfl

theorem merge_secrets_skip :
    ∀ (secrets : JObj) (k : String) (v : JVal) (t : JObj),
      memKey secrets k = false →
      merge_secrets (ocons k v t) secrets = ocons k v (merge_secrets t secrets)
  | onil, k, v, t, _ => by rw [merge_secrets_nil, merge_secrets_nil]
  | ocons k2 v2 rest, k, v, t, h => by
    simp only [memKey, Bool.or_eq_false_iff] at h
    obtain ⟨hne, hrest⟩ := h
    have hne' : ¬ (k = k2) := fun he => by simp [he] at hne
    have hl : lookupKey (ocons k v t) k2 = lookupKey t k2 := by
      simp [lookupKey, hne']
    have hs : ∀ w, setKey (ocons k v t) k2 w = ocons k v (setKey t k2 w) := by
      intro w; simp [setKey, hne']
    by_cases hcase : ∃ s u, v2 = jobj s ∧ lookupKey t k2 = some (jobj u)
    · obtain ⟨s, u, rfl, hlu⟩ := hcase
      rw [merge_secrets.eq_2 _ k2 rest s u (hl.trans hlu), hs,
        merge_secrets.eq_2 t k2 rest s u hlu,
        merge_secrets_skip rest k v _ hrest]
    · push_neg at hcase
      have e1 : merge_secrets (ocons k v t) (ocons k2 v2 rest) =
          merge_secrets (setKey (ocons k v t) k2 v2) rest :=
        merge_secrets.eq_3 _ k2 rest v2
          (fun s u hv hlu => hcase s u hv (by rw [← hl]; exact hlu))
      have e2 : merge_secrets t (ocons k2 v2 rest) =
          merge_secrets (setKey t k2 v2) rest :=
        merge_secrets.eq_3 t k2 rest v2 (fun s u hv hlu => hcase s u hv hlu)
      rw [e1, hs, e2, merge_secrets_skip rest k v _ hrest]

theorem extract_secrets_keys_sub :
    ∀ (fs : JObj) (k : String),
      memKey (extract_sensitive_fields fs).2 k = true → memKey fs k = true
  | onil, k, h => by rw [extract_nil] at h; simp [memKey] at h
  | ocons k' v rest, k, h => by
    by_cases hk : isSensitiveKey k'
    · rw [extract_cons_sens k' v rest hk] at h
      simp only [memKey, Bool.or_eq_true] at h ⊢
      rcases h with h | h
      · exact Or.inl h
      · exact Or.inr (extract_secrets_keys_sub rest k h)
    · rw [Bool.not_eq_true] at hk
      rcases v with _ | b | n | s | xs | fs'
      rotate_right 1
      · rw [extract_cons_obj k' fs' rest hk] at h
        by_cases he : (extract_sensitive_fields fs').2.isEmpty = true
        · rw [if_pos he] at h
          simp only [memKey, Bool.or_eq_true] at h ⊢
          exact Or.inr (extract_secrets_keys_sub rest k h)
        · rw [if_neg he] at h
          simp only [memKey, Bool.or_eq_true] at h ⊢
          rcases h with h | h
          · exact Or.inl h
          · exact Or.inr (extract_secrets_keys_sub rest k h)
      all_goals
        first
        | rw [extract_cons_nonobj k' jnull rest hk rfl] at h
        | rw [extract_cons_nonobj k' (jbool _) rest hk rfl] at h
        | rw [extract_cons_nonobj k' (jnum _) rest hk rfl] at h
        | rw [extract_cons_nonobj k' (jstr _) rest hk rfl] at h
        | rw [extract_cons_nonobj k' (jarr _) rest hk rfl] at h
      all_goals
        simp only [memKey, Bool.or_eq_true] at h ⊢
        exact Or.inr (extract_secrets_keys_sub rest k h)

theorem extract_clean_eq_of_no_secrets :
    ∀ fs : JObj, (extract_sensitive_fields fs).2 = onil →
      (extract_sensitive_fields fs).1 = fs
  | onil, _ => rfl
  | ocons k v rest, h => by
    by_cases hk : isSensitiveKey k
    · rw [extract_cons_sens k v rest hk] at h
      simp at h
    · rw [Bool.not_eq_true] at hk
      rcases v with _ | b | n | s | xs | fs'
      rotate_right 1
      · rw [extract_cons_obj k fs' rest hk] at h ⊢
        by_cases he : (extract_sensitive_fields fs').2.isEmpty = true
        · rw [if_pos he] at h
          have hen : (extract_sensitive_fields fs').2 = onil :=
            (JObj.isEmpty_iff _).mp he
          simp only
          rw [extract_clean_eq_of_no_secrets fs' hen,
            extract_clean_eq_of_no_secrets rest h]
        · rw [if_neg he] at h
          simp at h
      all_goals
        first
        | rw [extract_cons_nonobj k jnull rest hk rfl] at h ⊢
        | rw [extract_cons_nonobj k (jbool _) rest hk rfl] at h ⊢
        | rw [extract_cons_nonobj k (jnum _) rest hk rfl] at h ⊢
        | rw [extract_cons_nonobj k (jstr _) rest hk rfl] at h ⊢
        | rw [extract_cons_nonobj k (jarr _) rest hk rfl] at h ⊢
      all_goals
        simp only
        rw [extract_clean_eq_of_no_secrets rest h]

theorem merge_extract_roundtrip :
    ∀ fs : JObj, nodupKeysObj fs = true →
      merge_secrets (extract_sensitive_fields fs).1 (extract_sensitive_fields fs).2 = fs
  | onil, _ => rfl
  | ocons k v rest, h => by
    simp only [nodupKeysObj, Bool.and_eq_true, Bool.not_eq_true'] at h
    obtain ⟨⟨hmem, hv⟩, hrest⟩ := h
    have hker : memKey (extract_sensitive_fields rest).2 k = false := by
      cases hm : memKey (extract_sensitive_fields rest).2 k with
      | false => rfl
      | true => rw [extract_secrets_keys_sub rest k hm] at hmem; cases hmem
    by_cases hk : isSensitiveKey k
    · rw [extract_cons_sens k v rest hk]
      simp only
      have hl : lookupKey
          (ocons k (jstr REDACTED_VALUE) (extract_sensitive_fields rest).1) k =
          some (jstr REDACTED_VALUE) := by simp [lookupKey]
      have hstep := merge_secrets.eq_3
        (ocons k (jstr REDACTED_VALUE) (extract_sensitive_fields rest).1)
        k (extract_sensitive_fields rest).2 v
        (fun s u hveq hlu => by rw [hl] at hlu; cases hlu)
      rw [hstep]
      have hset : setKey
          (ocons k (jstr REDACTED_VALUE) (extract_sensitive_fields rest).1) k v =
          ocons k v (extract_sensitive_fields rest).1 := by simp [setKey]
      rw [hset, merge_secrets_skip _ k v _ hker, merge_extract_roundtrip rest hrest]
    · rw [Bool.not_eq_true] at hk
      rcases v with _ | b | n | s | xs | fs'
      rotate_right 1
      · simp only [nodupKeysVal] at hv
        rw [extract_cons_obj k fs' rest hk]
        by_cases he : (extract_sensitive_fields fs').2.isEmpty = true
        · rw [if_pos he]
          simp only
          have hen : (extract_sensitive_fields fs').2 = onil :=
            (JObj.isEmpty_iff _).mp he
          rw [extract_clean_eq_of_no_secrets fs' hen,
            merge_secrets_skip _ k _ _ hker, merge_extract_roundtrip rest hrest]
        · rw [if_neg he]
          simp only
          have hl : lookupKey
              (ocons k (jobj (extract_sensitive_fields fs').1)
                (extract_sensitive_fields rest).1) k =
              some (jobj (extract_sensitive_fields fs').1) := by simp [lookupKey]
          rw [merge_secrets.eq_2 _ k _ _ _ hl, merge_extract_roundtrip fs' hv]
          have hset : setKey
              (ocons k (jobj (extract_sensitive_fields fs').1)
                (extract_sensitive_fields rest).1) k (jobj fs') =
              ocons k (jobj fs') (extract_sensitive_fields rest).1 := by
            simp [setKey]
          rw [hset, merge_secrets_skip _ k _ _ hker, merge_extract_roundtrip rest hrest]
      all_goals
        first
        | rw [extract_cons_nonobj k jnull rest hk rfl]
        | rw [extract_cons_nonobj k (jbool _) rest hk rfl]
        | rw [extract_cons_nonobj k (jnum _) rest hk rfl]
        | rw [extract_cons_nonobj k (jstr _) rest hk rfl]
        | rw [extract_cons_nonobj k (jarr _) rest hk rfl]
      all_goals
        simp only
        rw [merge_secrets_skip _ k _ _ hker, merge_extract_roundtrip rest hrest]

-- =============================================================================
-- Gate helper lemmas
-- =============================================================================

/-- Every blocked decision of the enabled gate demands a human. -/
theorem check_safeguard_blocked_requires_human (t : String) (c : Rat)
    (h : (check_safeguard true t c).allowed = false) :
    (check_safeguard true t c).requires_human = true := by
  rcases hl : (alGet TOOL_SECURITY_LEVELS t).getD SecurityLevel.L0_READ_ONLY
  case L0_READ_ONLY => simp [check_safeguard, hl] at h
  case L1_MINOR =>
    by_cases hc : c ≥ 80 <;> simp [check_safeguard, hl, hc] at h ⊢
  case L2_MODERATE => simp [check_safeguard, hl] at h
  case L3_SENSITIVE => simp [check_safeguard, hl]
  case L4_FORBIDDEN => simp [check_safeguard, hl]

-- =============================================================================
-- Claim C3
-- =============================================================================

/-- The counterexample tree `{"a": [{"password": "x"}]}`: a map carrying a
sensitive field inside an array. -/
def C3cex : JObj := objL [("a", jarr (arrL [jobj (objL [("password", jstr "x")])]))]

/-- C3, counterexample: for `A = {"a": [{"password": "x"}]}` the round-trip
`merge(redact(A), extract(A)[1])` does not restore `A` —
`redact_sensitive_fields` redacts inside the array while
`extract_sensitive_fields` never collects from arrays, so the password stays
`[REDACTED]` after the merge. -/
theorem C3_roundtrip_counterexample :
    merge_secrets (redact_sensitive_fields C3cex)
      (extract_sensitive_fields C3cex).2 ≠ C3cex := by decide

/-- C3 (amended): for every argument tree with unique keys in which no map
inside an array carries a sensitive field (at any depth), merging the
extracted secrets back into the redacted tree restores the original:
`merge(redact(A), extract(A)[1]) == A`. -/
theorem C3_redact_extract_merge_roundtrip (fs : JObj)
    (h1 : nodupKeysObj fs = true) (h2 : arraysCleanObj fs = true) :
    merge_secrets (redact_sensitive_fields fs)
      (extract_sensitive_fields fs).2 = fs := by
  rw [redact_eq_extract_clean fs h2]
  exact merge_extract_roundtrip fs h1

/-- A well-formed tree with secrets at the top level and in a nested map,
plus an array of mixed scalars and a secret-free map. -/
def C3wit : JObj :=
  objL [("username", jstr "jdoe"),
        ("new_password", jstr "S3cret!"),
        ("options", jobj (objL [("api_key", jstr "k-123"), ("note", jstr "x")])),
        ("tags", jarr (arrL [jstr "a", jobj (objL [("name", jstr "n")])]))]

/-- C3 witness: the amended round-trip at a concrete tree. -/
theorem C3_redact_extract_merge_roundtrip_witness :
    nodupKeysObj C3wit = true ∧ arraysCleanObj C3wit = true ∧
      merge_secrets (redact_sensitive_fields C3wit)
        (extract_sensitive_fields C3wit).2 = C3wit :=
  ⟨by decide, by decide,
   C3_redact_extract_merge_roundtrip C3wit (by decide) (by decide)⟩

-- =============================================================================
-- Claim C4
-- =============================================================================

/-- C4, counterexample: `cmdb_update_asset` has no entry in
`TOOL_SECURITY_LEVELS`, yet the enabled gate allows it (it defaults to L0),
contradicting the claimed deny-by-precaution. -/
theorem C4_unknown_tool_allowed_counterexample :
    alGet TOOL_SECURITY_LEVELS "cmdb_update_asset" = none
    ∧ (check_safeguard true "cmdb_update_asset" 100).allowed = true
    ∧ (check_safeguard true "cmdb_update_asset" 100).requires_human = false := by
  refine ⟨by decide, ?_, ?_⟩ <;> decide

/-- C4 (amended): a tool name with no SAFEGUARD classification defaults to
`L0_READ_ONLY` at execution time and is allowed for every confidence; the
"deny by precaution" fallback branch of `check_safeguard` is unreachable. -/
theorem C4_unknown_tool_defaults_to_L0_allowed (tool : String) (c : Rat)
    (h : alGet TOOL_SECURITY_LEVELS tool = none) :
    check_safeguard true tool c =
      { allowed := true, level := .L0_READ_ONLY,
        message := "Action en lecture seule autorisée",
        requires_human := false, pending_approval_id := none } := by
  simp [check_safeguard, h]

/-- C4 witness: the amended default at a concrete unregistered tool name. -/
theorem C4_unknown_tool_defaults_to_L0_allowed_witness :
    alGet TOOL_SECURITY_LEVELS "snmp_walk_device" = none
    ∧ check_safeguard true "snmp_walk_device" 42 =
        { allowed := true, level := .L0_READ_ONLY,
          message := "Action en lecture seule autorisée",
          requires_human := false, pending_approval_id := none } :=
  ⟨by decide, C4_unknown_tool_defaults_to_L0_allowed "snmp_walk_device" 42 (by decide)⟩

-- =============================================================================
-- Association-list lemmas
-- =============================================================================

/-- The field read by `error_data.get(k)` on a JSON object. -/
def jget (v : JVal) (k : String) : Option JVal :=
  match v with
  | jobj fs => lookupKey fs k
  | _ => none

theorem alGet_alSet_self {α : Type} (l : List (String × α)) (k : String) (v : α) :
    alGet (alSet l k v) k = some v := by
  induction l with
  | nil => simp [alSet, alGet]
  | cons p rest ih =>
    obtain ⟨k', v'⟩ := p
    by_cases hk : k' = k <;> simp [alSet, alGet, hk, ih]

theorem alGet_map_snd {α β : Type} (f : α → β) (l : List (String × α)) (k : String) :
    alGet (l.map (fun p => (p.1, f p.2))) k = (alGet l k).map f := by
  induction l with
  | nil => rfl
  | cons p rest ih =>
    obtain ⟨k', v⟩ := p
    by_cases hk : k' = k <;> simp [alGet, hk, ih]

-- =============================================================================
-- Claim C5
-- =============================================================================

/-- The server's answer to `POST /mcp/call` for the L1 tool
`glpi_create_ticket` invoked with confidence 50: a SAFEGUARD block. -/
def C5block : McpHttp := mcp_call_endpoint true [] "req-1" "glpi_create_ticket" onil 50

/-- C5, counterexample: the SAFEGUARD block through `POST /mcp/call` is HTTP
403 carrying JSON-RPC error code −32001 — not −32003 (`RATE_LIMIT_ERROR`) as
claimed (`server.py` hard-codes `-32001` with the comment "Custom error code
for SAFEGUARD"). -/
theorem C5_block_error_code_counterexample :
    C5block.status_code = 403
    ∧ (C5block.body.error.map (fun e => e.code)) = some (-32001)
    ∧ (C5block.body.error.map (fun e => e.code)) ≠ some MCPErrorCode.RATE_LIMIT_ERROR := by
  refine ⟨by decide, by decide, by decide⟩

/-- C5 (amended): whenever SAFEGUARD blocks a call through `POST /mcp/call`,
the response is HTTP 403 carrying a JSON-RPC error with code −32001 whose
`data` is the structured decision, including `requires_human = true` and the
level. -/
theorem C5_block_response_amended (tools : List MCPTool) (rid tool : String)
    (args : JObj) (c : Rat)
    (h : (check_safeguard true tool c).allowed = false) :
    (mcp_call_endpoint true tools rid tool args c).status_code = 403
    ∧ (mcp_call_endpoint true tools rid tool args c).body.error =
        some { code := -32001, message := (check_safeguard true tool c).message,
               data := some (check_safeguard true tool c).to_dict }
    ∧ jget (check_safeguard true tool c).to_dict "requires_human" = some (jbool true)
    ∧ jget (check_safeguard true tool c).to_dict "level" =
        some (jstr (check_safeguard true tool c).level.value) := by
  have hrh := check_safeguard_blocked_requires_human tool c h
  refine ⟨?_, ?_, ?_, ?_⟩
  · simp [mcp_call_endpoint, h]
  · simp [mcp_call_endpoint, h]
  · simp [SafeguardResponse.to_dict, jget, objL, lookupKey, hrh]
  · simp [SafeguardResponse.to_dict, jget, objL, lookupKey]

/-- C5 witness: the amended block shape at the concrete L1-below-threshold
call. -/
theorem C5_block_response_amended_witness :
    (check_safeguard true "glpi_create_ticket" 50).allowed = false
    ∧ (mcp_call_endpoint true [] "req-1" "glpi_create_ticket" onil 50).status_code = 403 :=
  ⟨by decide,
   (C5_block_response_amended [] "req-1" "glpi_create_ticket" onil 50 (by decide)).1⟩

-- =============================================================================
-- Claim C1
-- =============================================================================

/-- A registry holding `ad_reset_password` with an echo handler: the result
is exactly the keyword-argument dict the handler received, which lets a
theorem observe what the dispatcher passed in. -/
def C1tools : List MCPTool :=
  [{ name := "ad_reset_password", handler := some (fun args => .ok (jobj args)) }]

def C1args : JObj := objL [("username", jstr "jdoe"), ("new_password", jstr "S3cret!")]

/-- State after `POST /safeguard/request` for `ad_reset_password` with the
sensitive arguments, at t=0 with the default 60-minute TTL. -/
def C1afterCreate : QueueState :=
  (SafeguardQueue.create_approval_request { records := [], secrets := [] } 0 "id1"
    "ad_reset_password" C1args "L3" none onil 60).2

/-- State after `POST /safeguard/approve/id1` by alice at t=10. -/
def C1afterApprove : QueueState :=
  (SafeguardQueue.approve C1afterCreate 10 "id1" "alice" none).2

/-- Outcome of `POST /safeguard/execute/id1` at t=20. -/
def C1exec : ExecuteHttp × QueueState :=
  execute_approved_action C1tools C1afterApprove 20 "id1"

/-- C1: the claim fails on the code.  On executing the approved
`ad_reset_password` request the handler receives
`new_password == "[REDACTED]"` — not the original `"S3cret!"` — because
`execute_approved_action` dispatches `approval["arguments"]` from
`get_approval_status` and never calls `get_full_arguments`; and although the
status does become executed, the secret envelope under `approval:id1` is
still present afterwards (`cleanup_secrets` is never called).  The last
conjunct shows `get_full_arguments` would have reconstituted the original
arguments. -/
theorem C1_execute_dispatches_redacted_and_keeps_envelope :
    C1exec.1.status_code = 200
    ∧ C1exec.1.result =
        some (jobj (objL [("username", jstr "jdoe"), ("new_password", jstr REDACTED_VALUE)]))
    ∧ (SafeguardQueue.get_approval_status C1exec.2 "id1").map (fun r => r.status) =
        some ApprovalStatus.executed
    ∧ alGet C1exec.2.secrets "approval:id1" =
        some (objL [("new_password", jstr "S3cret!")], 3900)
    ∧ SafeguardQueue.get_full_arguments C1afterApprove "id1" = some C1args := by
  refine ⟨by decide, by decide, by decide, by decide, by decide⟩

-- =============================================================================
-- Claim C2
-- =============================================================================

/-- Arguments whose only secret sits in a map inside an array:
`{"accounts": [{"password": "hunter2"}]}`. -/
def C2args : JObj :=
  objL [("accounts", jarr (arrL [jobj (objL [("password", jstr "hunter2")])]))]

def C2create : CreateResult × QueueState :=
  SafeguardQueue.create_approval_request { records := [], secrets := [] } 0 "id2"
    "ad_reset_password" C2args "L3" none onil 60

/-- C2: the claim fails on the code.  `create_approval_request` splits the
arguments with `extract_sensitive_fields`, which does not recurse into
lists, so for `{"accounts": [{"password": "hunter2"}]}` the durable record's
arguments column keeps the password in plaintext (no sentinel anywhere) and
no secret envelope is written — even though `has_sensitive_fields` itself
reports that the tree contains a secret. -/
theorem C2_plaintext_secret_reaches_durable_record :
    (SafeguardQueue.get_approval_status C2create.2 "id2").map (fun r => r.arguments) =
      some C2args
    ∧ has_sensitive_fields C2args = true
    ∧ C2create.2.secrets = [] := by
  refine ⟨by decide, by decide, by decide⟩

-- =============================================================================
-- Claims C6 and C7: shared scenario
-- =============================================================================

/-- A pending approval created at t=0 that expired at t=100. -/
def pendingPastDueRecord : ApprovalRecord :=
  { tool_name := "ad_reset_password", arguments := onil, security_level := "L3",
    requester_ip := none, request_context := onil, status := .pending,
    created_at := 0, expires_at := 100, approved_at := none, approver := none,
    approval_comment := none, executed_at := none, execution_result := none,
    execution_error := none }

def pendingPastDueState : QueueState :=
  { records := [("idP", pendingPastDueRecord)], secrets := [] }

/-- C6, counterexample: `mark_executed` on a record whose status is pending
(not approved) still flips it to executed — the `UPDATE` carries no status
guard, so the claimed "never changes the status of a record in any other
state" is false at queue level. -/
theorem C6_mark_executed_unguarded_counterexample :
    (SafeguardQueue.get_approval_status pendingPastDueState "idP").map (fun r => r.status) =
      some ApprovalStatus.pending
    ∧ (SafeguardQueue.get_approval_status
        (SafeguardQueue.mark_executed pendingPastDueState 300 "idP" none none) "idP").map
        (fun r => r.status) = some ApprovalStatus.executed := by
  refine ⟨by decide, by decide⟩

/-- C6 (amended): `approve`, `reject` and `expire_old_requests` move records
only along the permitted DAG edges (each acts only on pending records;
`approve` sends an expired-pending record to expired); `mark_executed`,
however, sets the record's status to executed or failed unconditionally,
whatever its current status; the approved-only discipline is enforced one
level up by the `POST /safeguard/execute` endpoint, which leaves the state
untouched whenever the record's status is not approved. -/
theorem C6_transitions_amended (st : QueueState) (now : Int)
    (idA approver : String) (comment : Option String) (r : ApprovalRecord)
    (tools : List MCPTool) (result : Option JVal) (error : Option String)
    (h : alGet st.records idA = some r) :
    (r.status ≠ .pending → (SafeguardQueue.approve st now idA approver comment).2 = st)
    ∧ (r.status = .pending →
        (alGet (SafeguardQueue.approve st now idA approver comment).2.records idA).map
          (fun x => x.status) =
          some (if r.expires_at < now then ApprovalStatus.expired else .approved))
    ∧ (r.status ≠ .pending → (SafeguardQueue.reject st now idA approver comment).2 = st)
    ∧ (r.status = .pending →
        (alGet (SafeguardQueue.reject st now idA approver comment).2.records idA).map
          (fun x => x.status) = some ApprovalStatus.rejected)
    ∧ ((alGet (SafeguardQueue.expire_old_requests st now).records idA).map
        (fun x => x.status) =
        some (if r.status = .pending && r.expires_at < now then ApprovalStatus.expired
              else r.status))
    ∧ ((alGet (SafeguardQueue.mark_executed st now idA result error).records idA).map
        (fun x => x.status) =
        some (match error with
              | none => ApprovalStatus.executed
              | some e => if e = "" then ApprovalStatus.executed else ApprovalStatus.failed))
    ∧ (r.status ≠ .approved → (execute_approved_action tools st now idA).2 = st) := by
  refine ⟨?_, ?_, ?_, ?_, ?_, ?_, ?_⟩
  · intro hs
    simp [SafeguardQueue.approve, h, hs]
  · intro hs
    by_cases hexp : r.expires_at < now <;>
      simp [SafeguardQueue.approve, h, hs, hexp, alGet_alSet_self]
  · intro hs
    simp [SafeguardQueue.reject, h, hs]
  · intro hs
    simp [SafeguardQueue.reject, h, hs, alGet_alSet_self]
  · simp only [SafeguardQueue.expire_old_requests, alGet_map_snd, h, Option.map_some']
    by_cases hc : r.status = ApprovalStatus.pending && r.expires_at < now <;>
      simp [expireStep, hc]
  · cases error with
    | none => simp [SafeguardQueue.mark_executed, h, alGet_alSet_self]
    | some e =>
      by_cases he : e = "" <;> simp [SafeguardQueue.mark_executed, h, he, alGet_alSet_self]
  · intro hs
    simp [execute_approved_action, SafeguardQueue.get_approval_status, h, hs]

/-- C6 witness: the amended transitions at the concrete pending-and-expired
record (approve at t=200 sends it to expired, not approved). -/
theorem C6_transitions_amended_witness :
    alGet pendingPastDueState.records "idP" = some pendingPastDueRecord
    ∧ (alGet (SafeguardQueue.approve pendingPastDueState 200 "idP" "alice" none).2.records
        "idP").map (fun x => x.status) =
        some (if pendingPastDueRecord.expires_at < (200 : Int) then ApprovalStatus.expired
              else .approved) :=
  ⟨by decide,
   (C6_transitions_amended pendingPastDueState 200 "idP" "alice" none
     pendingPastDueRecord [] none none (by decide)).2.1 rfl⟩

/-- C7: the claim fails on the code.  For the pending record past its
`expires_at` (expired at t=100, observed at t=200): `get_pending_approvals`
does exclude it and `approve` first moves it to expired, but `reject` runs a
plain `UPDATE … WHERE id AND status='pending'` with no expiry check and
moves the record to rejected — the claim says such a record is never moved
to rejected. -/
theorem C7_reject_bypasses_expiry :
    (alGet pendingPastDueState.records "idP").map (fun r => r.status) =
      some ApprovalStatus.pending
    ∧ (alGet pendingPastDueState.records "idP").map (fun r => r.expires_at) = some 100
    ∧ SafeguardQueue.get_pending_approvals pendingPastDueState 200 50 = []
    ∧ (alGet (SafeguardQueue.approve pendingPastDueState 200 "idP" "bob" none).2.records
        "idP").map (fun r => r.status) = some ApprovalStatus.expired
    ∧ (SafeguardQueue.reject pendingPastDueState 200 "idP" "bob" none).1.success = true
    ∧ (alGet (SafeguardQueue.reject pendingPastDueState 200 "idP" "bob" none).2.records
        "idP").map (fun r => r.status) = some ApprovalStatus.rejected := by
  refine ⟨by decide, by decide, by decide, by decide, by decide, by decide⟩

-- =============================================================================
-- Claim C8
-- =============================================================================

/-- The server's SAFEGUARD block for the L3 tool `ad_reset_password` through
`POST /mcp/call`. -/
def C8resp : McpHttp := mcp_call_endpoint true [] "req-8" "ad_reset_password" onil 100

/-- C8: the claim fails on the code.  The server's block is HTTP 403, and
`MCPClient.call` checks `response.status_code == 403` before ever reading
the JSON-RPC body, raising `MCPError("Authentication failed", 403)`.  So the
client indeed performs no retry (a single attempt), but it surfaces the
block as an authentication error — never as the structured
`SafeguardBlockedError` its own docstring promises (that branch needs code
−32003 or "safeguard" in the message of a non-403 body, unreachable for
server blocks). -/
theorem C8_client_treats_block_as_auth_error :
    C8resp.status_code = 403
    ∧ (C8resp.body.error.map (fun e => e.code)) = some (-32001)
    ∧ MCPClient.call 3 C8resp "ad_reset_password" =
        (ClientOutcome.mcpError "Authentication failed" 403, 1) := by
  refine ⟨by decide, by decide, by decide⟩

-- =============================================================================
-- Claim C9
-- =============================================================================

/-- Production settings with every critical control in place but an API key
of only 10 characters. -/
def C9shortKeySettings : Settings :=
  { environment := "production", mcp_api_key := "shortkey12",
    mcp_require_auth := true, cors_allowed_origins := "https://app.example.com",
    safeguard_enabled := true,
    redis_secret_key := "0123456789abcdef0123456789abcdef" }

/-- C9, counterexample: in production with a non-empty API key of 10
characters (< 32), `validate_security` emits only a `WARNING` and the
startup hook does not raise — the claim's "or shorter than 32 characters"
clause does not hold. -/
theorem C9_short_key_startup_counterexample :
    C9shortKeySettings.environment = "production"
    ∧ C9shortKeySettings.mcp_api_key.length < 32
    ∧ C9shortKeySettings.mcp_api_key ≠ ""
    ∧ startup_raises C9shortKeySettings = false := by
  refine ⟨by decide, by decide, by decide, by decide⟩

/-- C9 (amended): with environment production, startup raises exactly when
authentication is disabled, the authentication key is empty, SAFEGUARD is
disabled, the encryption key is empty, or the origin list is empty; a
non-empty key shorter than 32 characters yields only a warning. -/
theorem C9_production_startup_amended (s : Settings)
    (h : lowerStr s.environment = "production") :
    (startup_raises s = true ↔
      (s.mcp_require_auth = false ∨ s.mcp_api_key = "" ∨ s.safeguard_enabled = false
       ∨ s.cors_allowed_origins = "" ∨ s.redis_secret_key = "")) := by
  have hC1 : startsWithStr "CRITICAL"
      "CRITICAL: MCP_REQUIRE_AUTH must be 'true' in production." = true := by decide
  have hC2 : startsWithStr "CRITICAL"
      "CRITICAL: MCP_API_KEY is empty in production." = true := by decide
  have hC3 : startsWithStr "CRITICAL"
      "CRITICAL: SAFEGUARD_ENABLED must be 'true' in production." = true := by decide
  have hC4 : startsWithStr "CRITICAL"
      "CRITICAL: CORS_ALLOWED_ORIGINS must be configured in production." = true := by decide
  have hC5 : startsWithStr "CRITICAL"
      "CRITICAL: REDIS_SECRET_KEY is empty in production." = true := by decide
  have hC6 : startsWithStr "CRITICAL"
      "CRITICAL: mcp_require_auth=True mais MCP_API_KEY est vide." = true := by decide
  have hW1 : startsWithStr "CRITICAL" "WARNING: MCP_API_KEY trop courte." = false := by
    decide
  have hW2 : startsWithStr "CRITICAL" "WARNING: REDIS_SECRET_KEY trop courte." = false := by
    decide
  by_cases h1 : s.mcp_require_auth <;>
  by_cases h2 : s.mcp_api_key = "" <;>
  by_cases h3 : s.safeguard_enabled <;>
  by_cases h4 : s.cors_allowed_origins = "" <;>
  by_cases h5 : s.redis_secret_key = "" <;>
    simp [startup_raises, Settings.validate_security, h, h1, h2, h3, h4, h5,
      hC1, hC2, hC3, hC4, hC5, hC6, hW1, hW2]

/-- Production settings whose only violation is SAFEGUARD being disabled
(environment spelled with a capital to exercise the `.lower()`). -/
def C9prodNoSafeguard : Settings :=
  { environment := "Production", mcp_api_key := "0123456789abcdef0123456789abcdef",
    mcp_require_auth := true, cors_allowed_origins := "https://app.example.com",
    safeguard_enabled := false,
    redis_secret_key := "0123456789abcdef0123456789abcdef" }

/-- C9 witness: the amended criterion applied to concrete production
settings with SAFEGUARD disabled. -/
theorem C9_production_startup_amended_witness :
    lowerStr C9prodNoSafeguard.environment = "production"
    ∧ startup_raises C9prodNoSafeguard = true :=
  ⟨by decide,
   (C9_production_startup_amended C9prodNoSafeguard (by decide)).mpr
     (Or.inr (Or.inr (Or.inl rfl)))⟩

-- =============================================================================
-- Claim C10
-- =============================================================================

/-- C10: for a registered tool with a handler, `ToolRegistry.execute` is
total over the handler's outcomes: a returned value becomes a success
response; a `TypeError` becomes `INVALID_PARAMS` (−32602); any other
exception becomes `TOOL_EXECUTION_ERROR` (−32001) with the exception's type
name preserved under `data.error_type`. -/
theorem C10_registry_execute_total (tools : List MCPTool) (name rid : String)
    (args : JObj) (tool : MCPTool) (hf : JObj → HandlerOutcome)
    (h : ToolRegistry.get tools name = some tool) (hh : tool.handler = some hf) :
    (∀ res, hf args = .ok res →
      ToolRegistry.execute tools name args rid = MCPResponse.success rid res)
    ∧ (∀ m, hf args = .raiseTypeError m →
        (ToolRegistry.execute tools name args rid).error =
          some { code := MCPErrorCode.INVALID_PARAMS,
                 message := "Invalid parameters: " ++ m, data := none })
    ∧ (∀ et m, hf args = .raiseOther et m →
        (ToolRegistry.execute tools name args rid).error =
          some { code := MCPErrorCode.TOOL_EXECUTION_ERROR,
                 message := "Tool execution failed: " ++ m,
                 data := some (jobj (objL [("error_type", jstr et)])) }) := by
  refine ⟨?_, ?_, ?_⟩
  · intro res hres
    simp [ToolRegistry.execute, h, hh, hres]
  · intro m hm
    simp [ToolRegistry.execute, MCPResponse.failure, h, hh, hm]
  · intro et m hm
    simp [ToolRegistry.execute, MCPResponse.failure, h, hh, hm]

def C10handler : JObj → HandlerOutcome := fun _ => .raiseOther "ValueError" "boom"

def C10tool : MCPTool := { name := "diag_tool", handler := some C10handler }

/-- C10 witness: the `raiseOther` branch at a concrete registry. -/
theorem C10_registry_execute_total_witness :
    ToolRegistry.get [C10tool] "diag_tool" = some C10tool
    ∧ C10tool.handler = some C10handler
    ∧ (ToolRegistry.execute [C10tool] "diag_tool" onil "rid-10").error =
        some { code := MCPErrorCode.TOOL_EXECUTION_ERROR,
               message := "Tool execution failed: boom",
               data := some (jobj (objL [("error_type", jstr "ValueError")])) } :=
  ⟨rfl, rfl,
   (C10_registry_execute_total [C10tool] "diag_tool" "rid-10" onil C10tool C10handler
     rfl rfl).2.2 "ValueError" "boom" rfl⟩
